import Mathlib

/-!
Verification of the Bird-Watch-App entitlement/quota engine.

The definitions below shallowly embed the client-side entitlement logic of
the repository:

* `checkSubscriptionStatus`, `canAccessPremiumFeature`, `getRemainingScans`
  from the `AuthContext` code in `APP_STORE_DEPLOYMENT_GUIDE.md` (lines
  834-871);
* the post-identification scan-count update of `identifyBird` in
  `src/contexts/BirdContext.js` (lines 48-66), embedded as
  `updateScanCount`, together with the authentication guard of
  `identifyBird` (lines 23-26), embedded as `identifyBirdClient`;
* `hasLimitReached` and `exportSightings` from
  `src/screens/MySightingsScreen.js`;
* the backend scan-consumption endpoint is not part of the visible
  sources, so the entitlement-engine operation `checkAndConsumeScan` and
  the orchestrating `identify` flow are modelled from the specification
  (each such definition says so in its doc comment).

Calendar days are represented by their JavaScript `toDateString()` value,
an opaque `String`: the code only ever compares these strings for
equality, so day arithmetic never matters; "the next day" is any date
string different from the stored one.
-/

/-- Subscription tiers, from the spec data model and the
`subscription_plan` values used throughout the sources. -/
inductive Tier
  | free
  | premium_monthly
  | premium_yearly
deriving DecidableEq, Repr

/-- The client-side user record, with the fields the entitlement code
reads: `subscription_plan` (absent ⇒ treated as free), `scans_today`
(absent ⇒ 0) and `last_scan_date` (stored at calendar-day granularity;
absent ⇒ the empty string after `toDateString` normalisation). -/
structure User where
  subscription_plan : Option Tier
  scans_today : Option Nat
  last_scan_date : Option String
deriving DecidableEq, Repr

/-- `checkSubscriptionStatus` from `APP_STORE_DEPLOYMENT_GUIDE.md`:
`if (!user) return 'free'; return user.subscription_plan || 'free';` -/
def checkSubscriptionStatus (user : Option User) : Tier :=
  match user with
  | none => .free
  | some u => u.subscription_plan.getD .free

/-- The keys of the `premiumFeatures` object literal in
`canAccessPremiumFeature` (guide lines 844-853). -/
def premiumFeatureNames : List String :=
  ["unlimited_scans", "migration_maps", "full_audio", "detailed_info",
   "unlimited_sightings", "community_post", "offline_mode", "push_notifications"]

/-- The `premiumFeatures` map: every listed key is bound to `true`;
a lookup of any other key yields `undefined`, i.e. `none`. -/
def premiumFeatures (feature : String) : Option Bool :=
  if feature ∈ premiumFeatureNames then some true else none

/-- `canAccessPremiumFeature` from the guide (lines 839-855):
free tier is always denied, otherwise `premiumFeatures[feature] || false`. -/
def canAccessPremiumFeature (user : Option User) (feature : String) : Bool :=
  let subscription := checkSubscriptionStatus user
  if subscription = .free then false
  else (premiumFeatures feature).getD false

/-- `user.last_scan_date ? new Date(user.last_scan_date).toDateString() : ''`
with dates kept at day granularity. -/
def lastScanDateString (user : User) : String :=
  user.last_scan_date.getD ""

/-- `getRemainingScans` from the guide (lines 857-871): `0` with no user,
`-1` (unlimited) off the free tier, `3` when the stored last-scan date is
not today, else `max(0, 3 - (user.scans_today || 0))`. -/
def getRemainingScans (today : String) (user : Option User) : Int :=
  match user with
  | none => 0
  | some u =>
    let subscription := checkSubscriptionStatus (some u)
    if subscription ≠ .free then -1
    else if today ≠ lastScanDateString u then 3
    else max 0 (3 - (u.scans_today.getD 0 : Int))

/-- The scan-count update performed by `identifyBird` in
`src/contexts/BirdContext.js` (lines 50-65) after a successful
identification: reset to 1 on a new day, otherwise increment, always
stamping `last_scan_date` with the current time. Note the source applies
this to every user, without inspecting the subscription tier. -/
def updateScanCount (today : String) (user : User) : User :=
  if today ≠ lastScanDateString user then
    { user with scans_today := some 1, last_scan_date := some today }
  else
    { user with scans_today := some (user.scans_today.getD 0 + 1),
                last_scan_date := some today }

/-- Errors surfaced by the client `identifyBird` action. -/
inductive IdentifyClientError
  | authenticationRequired
  | apiFailed (msg : String)
deriving DecidableEq, Repr

/-- The client `identifyBird` of `src/contexts/BirdContext.js`
(lines 23-78), with the network call abstracted as its result
`apiResult` (`none` models a falsy response): it throws
`Authentication required` when no auth token is present, and on a
truthy API result applies `updateScanCount` to the current user. -/
def identifyBirdClient (authToken : Option String) (today : String)
    (user : Option User) (apiResult : Option String) :
    Except IdentifyClientError (String × Option User) :=
  match authToken with
  | none => .error .authenticationRequired
  | some _ =>
    match apiResult with
    | some result => .ok (result, user.map (updateScanCount today))
    | none => .error (.apiFailed "Failed to identify bird")

/-- `hasLimitReached` from `src/screens/MySightingsScreen.js` (line 230):
`!canAccessPremiumFeature('unlimited_sightings') && sightings.length >= 5`. -/
def hasLimitReached (user : Option User) (sightingsLen : Nat) : Bool :=
  !(canAccessPremiumFeature user "unlimited_sightings") && decide (5 ≤ sightingsLen)

/-- Outcome of the export-sightings action. -/
inductive ExportOutcome
  | upsell
  | exported
deriving DecidableEq, Repr

/-- `exportSightings` from `src/screens/MySightingsScreen.js`
(lines 129-137): users without the `unlimited_sightings` entitlement are
sent to the premium upsell screen; everyone else gets the export. -/
def exportSightings (user : Option User) : ExportOutcome :=
  if !(canAccessPremiumFeature user "unlimited_sightings") then .upsell
  else .exported

/-- The spec data model's `Session`: authenticated identity plus a
resolved subscription tier. -/
structure Session where
  userId : String
  subscriptionTier : Tier
deriving DecidableEq, Repr

/-- The spec data model's `ScanLedgerEntry`: per-user, per-day scan count. -/
structure ScanLedgerEntry where
  userId : String
  date : String
  count : Nat
deriving DecidableEq, Repr

/-- Remaining-scans component of an entitlement decision: either the
`UNLIMITED` sentinel or a concrete count. -/
inductive Remaining
  | unlimited
  | scans (n : Nat)
deriving DecidableEq, Repr

/-- Denial-reason taxonomy relevant to scan consumption. -/
inductive DenialReason
  | DAILY_LIMIT_REACHED
deriving DecidableEq, Repr

/-- The spec data model's derived `EntitlementDecision`. -/
structure EntitlementDecision where
  allowed : Bool
  remaining : Remaining
  reason : Option DenialReason
deriving DecidableEq, Repr

/-- Count stored in the ledger for a user and day; a missing entry reads
as 0. -/
def ledgerCount (led : List ScanLedgerEntry) (uid day : String) : Nat :=
  match led.find? (fun e => e.userId == uid && e.date == day) with
  | some e => e.count
  | none => 0

/-- Increment a user's entry for a day, creating it with count 1 when
absent. -/
def ledgerIncrement (led : List ScanLedgerEntry) (uid day : String) :
    List ScanLedgerEntry :=
  if led.any (fun e => e.userId == uid && e.date == day) then
    led.map (fun e =>
      if e.userId == uid && e.date == day then { e with count := e.count + 1 }
      else e)
  else
    ⟨uid, day, 1⟩ :: led

/-- Modelled from the spec: the entitlement engine's `checkAndConsumeScan`
(spec section 4.1). The backend endpoint that actually enforces the daily
limit is not among the visible sources (only its client callers are), so
this follows the spec's words: a non-free tier is allowed with the
`UNLIMITED` sentinel and no ledger mutation; a free tier with today's
count already at 3 is denied with `DAILY_LIMIT_REACHED` and no mutation;
otherwise the entry is incremented (created if absent) and the call is
allowed with `3 - newCount` remaining. The whole call is one atomic step
on the ledger. -/
def checkAndConsumeScan (today : String) (s : Session)
    (led : List ScanLedgerEntry) :
    EntitlementDecision × List ScanLedgerEntry :=
  if s.subscriptionTier ≠ .free then
    (⟨true, .unlimited, none⟩, led)
  else
    let c := ledgerCount led s.userId today
    if 3 ≤ c then
      (⟨false, .scans 0, some .DAILY_LIMIT_REACHED⟩, led)
    else
      (⟨true, .scans (3 - (c + 1)), none⟩, ledgerIncrement led s.userId today)

/-- Error taxonomy of the identification request flow (spec section 7). -/
inductive IdentifyError
  | QuotaExceededError (reason : Option DenialReason)
  | ClassificationError
deriving DecidableEq, Repr

instance {ε α : Type} [DecidableEq ε] [DecidableEq α] :
    DecidableEq (Except ε α)
  | .ok a, .ok b =>
    if h : a = b then .isTrue (by rw [h])
    else .isFalse (by intro he; cases he; exact h rfl)
  | .ok _, .error _ => .isFalse (by intro he; cases he)
  | .error _, .ok _ => .isFalse (by intro he; cases he)
  | .error a, .error b =>
    if h : a = b then .isTrue (by rw [h])
    else .isFalse (by intro he; cases he; exact h rfl)

/-- Result of one `identify` invocation: the outcome, the ledger after
the call, and how many times the external classifier was contacted
during the call. -/
structure IdentifyOutcome where
  result : Except IdentifyError String
  ledger : List ScanLedgerEntry
  classifierCalls : Nat
deriving DecidableEq, Repr

/-- Modelled from the spec: the identification request flow `identify`
(spec section 4.2), with the external classifier abstracted as a
function from the image to a species identifier or a failure, and the
encyclopedia-content merge elided (it does not affect quota or
classifier-call behaviour). Step 1 calls `checkAndConsumeScan`; on
denial the flow fails with `QuotaExceededError` and the classifier is
not contacted; otherwise the classifier is called exactly once. -/
def identify (today : String) (s : Session) (led : List ScanLedgerEntry)
    (classify : String → Except Unit String) (image : String) :
    IdentifyOutcome :=
  let step := checkAndConsumeScan today s led
  if step.1.allowed then
    match classify image with
    | .ok species => ⟨.ok species, step.2, 1⟩
    | .error _ => ⟨.error .ClassificationError, step.2, 1⟩
  else
    ⟨.error (.QuotaExceededError step.1.reason), step.2, 0⟩

/-- `n` sequential `checkAndConsumeScan` calls for one session on one
day, threading the ledger; the second component counts the calls that
returned `allowed = true`. Under the spec's atomicity requirement every
concurrent execution of `n` calls is equivalent to such a serial run. -/
def runConsume (today : String) (s : Session) (led : List ScanLedgerEntry) :
    Nat → List ScanLedgerEntry × Nat
  | 0 => (led, 0)
  | n + 1 =>
    let prev := runConsume today s led n
    let step := checkAndConsumeScan today s prev.1
    (step.2, if step.1.allowed then prev.2 + 1 else prev.2)

/-- `n` sequential `identify` invocations for one session on one day,
threading the ledger; returns the final ledger, the total number of
classifier calls across all invocations, and the result of the last
invocation. -/
def identifyN (today : String) (s : Session) (led : List ScanLedgerEntry)
    (classify : String → Except Unit String) (image : String) :
    Nat → List ScanLedgerEntry × Nat × Option (Except IdentifyError String)
  | 0 => (led, 0, none)
  | n + 1 =>
    let prev := identifyN today s led classify image n
    let out := identify today s prev.1 classify image
    (out.ledger, prev.2.1 + out.classifierCalls, some out.result)

/-- `n` client-side scan consumptions on one day: iterated
`updateScanCount`, as performed by `identifyBird` after each successful
identification. -/
def consumeClientN (today : String) (u : User) : Nat → User
  | 0 => u
  | n + 1 => updateScanCount today (consumeClientN today u n)

/-- The spec's notion of "today's stored count" for the client user
record: the stored `scans_today` when the stored last-scan date is
today, else 0 (no entry for today). Stated from the claim's words, to be
compared with the source-derived `getRemainingScans`. -/
def specTodayCount (today : String) (u : User) : Nat :=
  if lastScanDateString u = today then u.scans_today.getD 0 else 0

lemma ledgerCount_nil (uid day : String) : ledgerCount [] uid day = 0 := rfl

lemma ledgerCount_singleton (uid day : String) (c : Nat) :
    ledgerCount [⟨uid, day, c⟩] uid day = c := by
  simp [ledgerCount, List.find?]

lemma ledgerIncrement_nil (uid day : String) :
    ledgerIncrement [] uid day = [⟨uid, day, 1⟩] := by
  simp [ledgerIncrement]

lemma ledgerIncrement_singleton (uid day : String) (c : Nat) :
    ledgerIncrement [⟨uid, day, c⟩] uid day = [⟨uid, day, c + 1⟩] := by
  simp [ledgerIncrement]

/-- Closed form of `n` serial free-tier consumptions from an empty
ledger: the single created entry carries count `min n 3`, and exactly
`min n 3` of the calls were allowed. -/
lemma runConsume_free_closed (today : String) (s : Session)
    (h : s.subscriptionTier = .free) (n : Nat) :
    runConsume today s [] n =
      ((if n = 0 then [] else [⟨s.userId, today, min n 3⟩]), min n 3) := by
  induction n with
  | zero => simp [runConsume]
  | succ n ih =>
    simp only [runConsume, ih]
    by_cases h0 : n = 0
    · subst h0
      simp [checkAndConsumeScan, h, ledgerCount, ledgerIncrement]
    · rw [if_neg h0]
      by_cases h3 : 3 ≤ n
      · have hm : min n 3 = 3 := by omega
        have hm1 : min (n + 1) 3 = 3 := by omega
        rw [hm]
        simp [checkAndConsumeScan, h, ledgerCount_singleton, hm1]
      · have hm : min n 3 = n := by omega
        have hm1 : min (n + 1) 3 = n + 1 := by omega
        rw [hm]
        simp [checkAndConsumeScan, h, ledgerCount_singleton,
          ledgerIncrement_singleton, h3, hm1]

/-- Claim C1: for a free-tier user on one day, starting from an empty
ledger, each of the first 3 `checkAndConsumeScan` calls is allowed and
raises the stored count to one more than before (call `n + 1` stores
`n + 1` and reports `3 - (n + 1)` remaining), and every later call that
day is denied with `remaining = 0` and reason `DAILY_LIMIT_REACHED`
without mutating the ledger. -/
theorem free_daily_quota_consumption (today : String) (s : Session)
    (h : s.subscriptionTier = .free) (n : Nat) :
    (n < 3 →
      checkAndConsumeScan today s (runConsume today s [] n).1 =
        (⟨true, .scans (3 - (n + 1)), none⟩, [⟨s.userId, today, n + 1⟩])) ∧
    (3 ≤ n →
      checkAndConsumeScan today s (runConsume today s [] n).1 =
        (⟨false, .scans 0, some .DAILY_LIMIT_REACHED⟩,
          (runConsume today s [] n).1)) := by
  rw [runConsume_free_closed today s h n]
  constructor
  · intro hn
    by_cases h0 : n = 0
    · subst h0
      simp [checkAndConsumeScan, h, ledgerCount, ledgerIncrement]
    · have hm : min n 3 = n := by omega
      simp [h0, hm, checkAndConsumeScan, h, ledgerCount_singleton,
        ledgerIncrement_singleton, Nat.not_le.mpr hn]
  · intro hn
    have h0 : n ≠ 0 := by omega
    have hm : min n 3 = 3 := by omega
    simp [h0, hm, checkAndConsumeScan, h, ledgerCount_singleton]

/-- Concrete run of claim C1's theorem: for a free user with an empty
ledger, the 3rd call (after 2 consumptions) is allowed with 0 remaining
and stores count 3, and the 5th call (after 4 attempts) is denied with
reason `DAILY_LIMIT_REACHED` and no mutation. -/
theorem free_daily_quota_consumption_witness :
    (checkAndConsumeScan "d" ⟨"u", .free⟩
        (runConsume "d" ⟨"u", .free⟩ [] 2).1 =
      (⟨true, .scans 0, none⟩, [⟨"u", "d", 3⟩])) ∧
    (checkAndConsumeScan "d" ⟨"u", .free⟩
        (runConsume "d" ⟨"u", .free⟩ [] 4).1 =
      (⟨false, .scans 0, some .DAILY_LIMIT_REACHED⟩,
        (runConsume "d" ⟨"u", .free⟩ [] 4).1)) :=
  ⟨(free_daily_quota_consumption "d" ⟨"u", .free⟩ rfl 2).1 (by decide),
   (free_daily_quota_consumption "d" ⟨"u", .free⟩ rfl 4).2 (by decide)⟩

/-- Claim C8: with each `checkAndConsumeScan` call an atomic step (as
the spec's ledger store mandates), any serial schedule of `n` calls by
one free-tier user against an empty ledger allows exactly `min n 3` of
them, and the final stored count equals the number of allowed calls and
never exceeds 3. -/
theorem atomic_consumption_cap (today : String) (s : Session)
    (h : s.subscriptionTier = .free) (n : Nat) :
    (runConsume today s [] n).2 = min n 3 ∧
    ledgerCount (runConsume today s [] n).1 s.userId today =
      (runConsume today s [] n).2 ∧
    (runConsume today s [] n).2 ≤ 3 := by
  rw [runConsume_free_closed today s h n]
  refine ⟨rfl, ?_, by simp⟩
  by_cases h0 : n = 0
  · simp [h0, ledgerCount]
  · simp [h0, ledgerCount_singleton]

/-- Concrete run of claim C8's theorem: 10 calls against an empty
ledger produce exactly 3 allowed decisions and a stored count of 3. -/
theorem atomic_consumption_cap_witness :
    (runConsume "d" ⟨"u", .free⟩ [] 10).2 = 3 ∧
    ledgerCount (runConsume "d" ⟨"u", .free⟩ [] 10).1 "u" "d" = 3 := by
  have h := atomic_consumption_cap "d" ⟨"u", .free⟩ rfl 10
  exact ⟨h.1.trans (by decide), h.2.1.trans (h.1.trans (by decide))⟩

/-- A denied `checkAndConsumeScan` call leaves the ledger untouched. -/
lemma checkAndConsumeScan_denied_ledger (today : String) (s : Session)
    (led : List ScanLedgerEntry)
    (h : (checkAndConsumeScan today s led).1.allowed = false) :
    (checkAndConsumeScan today s led).2 = led := by
  unfold checkAndConsumeScan at h ⊢
  by_cases ht : s.subscriptionTier ≠ .free
  · simp [ht] at h
  · by_cases hc : 3 ≤ ledgerCount led s.userId today
    · simp [ht, hc]
    · simp [ht, hc] at h

/-- Claim C2: `identify` consults the quota before the classifier — on
any denied quota decision it fails with `QuotaExceededError` carrying
the decision's reason, contacts the classifier zero times and leaves
the ledger unchanged; and in the end-to-end scenario (free user, empty
ledger, always-succeeding classifier, 4 calls in one day) the first 3
calls each reach the classifier once while the 4th fails with
`QuotaExceededError (DAILY_LIMIT_REACHED)` and no classifier call. -/
theorem identify_quota_before_classifier (today : String) (s : Session)
    (led : List ScanLedgerEntry) (classify : String → Except Unit String)
    (image : String)
    (h : (checkAndConsumeScan today s led).1.allowed = false) :
    (identify today s led classify image =
      ⟨.error (.QuotaExceededError (checkAndConsumeScan today s led).1.reason),
        led, 0⟩) ∧
    identifyN "d" ⟨"u", .free⟩ [] (fun _ => .ok "sparrow") "img" 4 =
      ([⟨"u", "d", 3⟩], 3,
        some (.error (.QuotaExceededError (some .DAILY_LIMIT_REACHED)))) := by
  refine ⟨?_, by decide⟩
  unfold identify
  simp only []
  rw [h]
  simp [checkAndConsumeScan_denied_ledger today s led h]

/-- Concrete run of claim C2's theorem: a free user whose ledger already
stores 3 scans today gets `QuotaExceededError` from `identify` with the
classifier never called and the ledger unchanged. -/
theorem identify_quota_before_classifier_witness :
    (identify "d" ⟨"u", .free⟩ [⟨"u", "d", 3⟩] (fun _ => .ok "sparrow") "img" =
      ⟨.error (.QuotaExceededError
        (checkAndConsumeScan "d" ⟨"u", .free⟩ [⟨"u", "d", 3⟩]).1.reason),
        [⟨"u", "d", 3⟩], 0⟩) ∧
    identifyN "d" ⟨"u", .free⟩ [] (fun _ => .ok "sparrow") "img" 4 =
      ([⟨"u", "d", 3⟩], 3,
        some (.error (.QuotaExceededError (some .DAILY_LIMIT_REACHED)))) :=
  identify_quota_before_classifier "d" ⟨"u", .free⟩ [⟨"u", "d", 3⟩]
    (fun _ => .ok "sparrow") "img" (by decide)

/-- Counterexample to claim C3 as stated: a premium-monthly user with
`scans_today = 2` and `last_scan_date` of an earlier day goes through a
successful client identification, and the success path rewrites both
`scans_today` (to 1) and `last_scan_date` — the per-day scan count and
last-scan date are not left unchanged for premium users. -/
theorem premium_scan_fields_mutated :
    checkSubscriptionStatus
      (some ⟨some .premium_monthly, some 2, some "Wed Jan 01 2025"⟩) ≠ .free ∧
    identifyBirdClient (some "token") "Thu Jan 02 2025"
      (some ⟨some .premium_monthly, some 2, some "Wed Jan 01 2025"⟩)
      (some "sparrow") =
      .ok ("sparrow",
        some ⟨some .premium_monthly, some 1, some "Thu Jan 02 2025"⟩) :=
  ⟨by decide, rfl⟩

/-- Claim C3 as amended: every premium-tier call of the entitlement
decision is allowed with the unlimited sentinel — `checkAndConsumeScan`
returns `{allowed, UNLIMITED}` without touching the ledger and
`getRemainingScans` returns `-1` — but the client identify success path
stamps `last_scan_date` (and rewrites `scans_today`) for every user,
premium ones included, so those stored per-user fields do change. -/
theorem premium_unlimited_decision (today td2 : String) (s : Session)
    (led : List ScanLedgerEntry) (u u2 : User)
    (hs : s.subscriptionTier ≠ .free)
    (hu : checkSubscriptionStatus (some u) ≠ .free) :
    checkAndConsumeScan today s led = (⟨true, .unlimited, none⟩, led) ∧
    getRemainingScans today (some u) = -1 ∧
    (updateScanCount td2 u2).last_scan_date = some td2 := by
  refine ⟨by simp [checkAndConsumeScan, hs], by simp [getRemainingScans, hu], ?_⟩
  unfold updateScanCount
  by_cases h : td2 ≠ lastScanDateString u2 <;> simp [h]

/-- Concrete run of claim C3's amended theorem on a premium-yearly
session and user. -/
theorem premium_unlimited_decision_witness :
    checkAndConsumeScan "d" ⟨"u", .premium_yearly⟩ [] =
      (⟨true, .unlimited, none⟩, []) ∧
    getRemainingScans "d" (some ⟨some .premium_yearly, some 2, some "d"⟩) = -1 ∧
    (updateScanCount "d" ⟨some .premium_yearly, some 2, some "c"⟩).last_scan_date =
      some "d" :=
  premium_unlimited_decision "d" "d" ⟨"u", .premium_yearly⟩ []
    ⟨some .premium_yearly, some 2, some "d"⟩
    ⟨some .premium_yearly, some 2, some "c"⟩ (by decide) (by decide)

/-- Closed form of `N ≥ 1` client consumptions on a fresh day: the
first resets `scans_today` to 1 and each later one increments, so the
record carries `scans_today = N` stamped with today's date. -/
lemma consumeClientN_fresh (today : String) (u : User)
    (hd : lastScanDateString u ≠ today) (N : Nat) (hN : 1 ≤ N) :
    consumeClientN today u N =
      { u with scans_today := some N, last_scan_date := some today } := by
  induction N with
  | zero => omega
  | succ N ih =>
    by_cases h0 : N = 0
    · subst h0
      unfold consumeClientN consumeClientN updateScanCount
      rw [if_pos (Ne.symm hd)]
    · unfold consumeClientN
      rw [ih (by omega)]
      unfold updateScanCount
      simp [lastScanDateString]

/-- Claim C4: `getRemainingScans` returns `-1` off the free tier, and on
the free tier equals the claim's formula `max 0 (3 - todayCount)` with a
missing today-entry read as 0; and after `N ≤ 3` client consumptions on
a fresh day it returns `3 - N`. -/
theorem remainingScans_formula (today : String) (u : User) (N : Nat) :
    (checkSubscriptionStatus (some u) ≠ .free →
      getRemainingScans today (some u) = -1) ∧
    (checkSubscriptionStatus (some u) = .free →
      getRemainingScans today (some u) =
        max 0 (3 - (specTodayCount today u : Int))) ∧
    (checkSubscriptionStatus (some u) = .free →
      lastScanDateString u ≠ today → N ≤ 3 →
      getRemainingScans today (some (consumeClientN today u N)) =
        3 - (N : Int)) := by
  refine ⟨fun hu => by simp [getRemainingScans, hu], fun hu => ?_, ?_⟩
  · unfold getRemainingScans specTodayCount
    by_cases hd : lastScanDateString u = today
    · simp [hu, hd]
    · simp [hu, hd, Ne.symm hd]
  · intro hu hd hN
    by_cases h0 : N = 0
    · subst h0
      simp [consumeClientN, getRemainingScans, hu, Ne.symm hd]
    · rw [consumeClientN_fresh today u hd N (by omega)]
      have hplan : checkSubscriptionStatus
          (some { u with scans_today := some N, last_scan_date := some today }) =
            .free := hu
      simp [getRemainingScans, hplan, lastScanDateString]
      omega

/-- Concrete run of claim C4's theorem: a premium user reads `-1`; a
free user with 1 scan stored today reads `max 0 (3 - 1) = 2`; a free
user consuming twice on a fresh day then reads `1`. -/
theorem remainingScans_formula_witness :
    getRemainingScans "d" (some ⟨some .premium_monthly, some 1, some "d"⟩) = -1 ∧
    getRemainingScans "d" (some ⟨some .free, some 1, some "d"⟩) =
      max 0 (3 - (specTodayCount "d" ⟨some .free, some 1, some "d"⟩ : Int)) ∧
    getRemainingScans "d"
      (some (consumeClientN "d" ⟨some .free, none, some "c"⟩ 2)) = 3 - (2 : Int) :=
  ⟨(remainingScans_formula "d" ⟨some .premium_monthly, some 1, some "d"⟩ 0).1
      (by decide),
   (remainingScans_formula "d" ⟨some .free, some 1, some "d"⟩ 0).2.1 (by decide),
   (remainingScans_formula "d" ⟨some .free, none, some "c"⟩ 2).2.2 (by decide)
      (by decide) (by decide)⟩

/-- Claim C5: for every feature in the enumerated premium-feature set
the gate follows one flat rule — `true` whenever the resolved tier is
not free, `false` whenever it is free. -/
theorem premium_feature_flat_rule (user : Option User) (feature : String)
    (hf : feature ∈ premiumFeatureNames) :
    (checkSubscriptionStatus user ≠ .free →
      canAccessPremiumFeature user feature = true) ∧
    (checkSubscriptionStatus user = .free →
      canAccessPremiumFeature user feature = false) := by
  constructor
  · intro hu
    simp [canAccessPremiumFeature, hu, premiumFeatures, hf]
  · intro hu
    simp [canAccessPremiumFeature, hu]

/-- Concrete run of claim C5's theorem: `offline_mode` is granted to a
premium-monthly user and denied to a free user. -/
theorem premium_feature_flat_rule_witness :
    canAccessPremiumFeature (some ⟨some .premium_monthly, none, none⟩)
      "offline_mode" = true ∧
    canAccessPremiumFeature (some ⟨some .free, none, none⟩)
      "offline_mode" = false :=
  ⟨(premium_feature_flat_rule (some ⟨some .premium_monthly, none, none⟩)
      "offline_mode" (by decide)).1 (by decide),
   (premium_feature_flat_rule (some ⟨some .free, none, none⟩)
      "offline_mode" (by decide)).2 (by decide)⟩

/-- Claim C6: within one calendar day the stored scan count only goes
up (a same-day update increments it by exactly 1), and the count is
implicitly reset across a date change — a free user who exhausted all 3
scans on day `prevDay` reads 3 remaining on a different day `newDay`
(so the scan is permitted) and the consumption stores a count of 1
stamped with the new day. -/
theorem scan_count_monotone_and_daily_reset (today : String) (u : User)
    (prevDay newDay : String) (uex : User)
    (hm : lastScanDateString u = today)
    (hplan : checkSubscriptionStatus (some uex) = .free)
    (hcount : uex.scans_today = some 3)
    (hdate : uex.last_scan_date = some prevDay)
    (hdiff : newDay ≠ prevDay) :
    (updateScanCount today u).scans_today.getD 0 = u.scans_today.getD 0 + 1 ∧
    getRemainingScans prevDay (some uex) = 0 ∧
    getRemainingScans newDay (some uex) = 3 ∧
    (updateScanCount newDay uex).scans_today = some 1 ∧
    (updateScanCount newDay uex).last_scan_date = some newDay := by
  have hd : newDay ≠ lastScanDateString uex := by
    simp [lastScanDateString, hdate, hdiff]
  refine ⟨?_, ?_, ?_, ?_, ?_⟩
  · simp [updateScanCount, hm]
  · simp [getRemainingScans, hplan, hcount, lastScanDateString, hdate]
  · simp [getRemainingScans, hplan, hd]
  · simp [updateScanCount, hd]
  · simp [updateScanCount, hd]

/-- Concrete run of claim C6's theorem: a free user with 3 scans stored
on `Mon Jan 06 2025` gets a same-day increment from 3 to 4 on another
record, reads 3 remaining on `Tue Jan 07 2025`, and the new-day
consumption stores count 1. -/
theorem scan_count_monotone_and_daily_reset_witness :
    (updateScanCount "Mon Jan 06 2025"
        ⟨some .free, some 2, some "Mon Jan 06 2025"⟩).scans_today.getD 0 =
      (⟨some .free, some 2, some "Mon Jan 06 2025"⟩ : User).scans_today.getD 0
        + 1 ∧
    getRemainingScans "Mon Jan 06 2025"
      (some ⟨some .free, some 3, some "Mon Jan 06 2025"⟩) = 0 ∧
    getRemainingScans "Tue Jan 07 2025"
      (some ⟨some .free, some 3, some "Mon Jan 06 2025"⟩) = 3 ∧
    (updateScanCount "Tue Jan 07 2025"
        ⟨some .free, some 3, some "Mon Jan 06 2025"⟩).scans_today = some 1 ∧
    (updateScanCount "Tue Jan 07 2025"
        ⟨some .free, some 3, some "Mon Jan 06 2025"⟩).last_scan_date =
      some "Tue Jan 07 2025" :=
  scan_count_monotone_and_daily_reset "Mon Jan 06 2025"
    ⟨some .free, some 2, some "Mon Jan 06 2025"⟩
    "Mon Jan 06 2025" "Tue Jan 07 2025"
    ⟨some .free, some 3, some "Mon Jan 06 2025"⟩
    (by decide) (by decide) (by decide) (by decide) (by decide)

/-- Counterexample to claim C7 as stated: with no authenticated user,
the entitlement operations do not fail — `checkSubscriptionStatus`
silently resolves to the free tier, `canAccessPremiumFeature` returns
the default decision `false`, and `getRemainingScans` returns the
default decision `0`. -/
theorem missing_session_returns_defaults :
    checkSubscriptionStatus none = Tier.free ∧
    canAccessPremiumFeature none "migration_maps" = false ∧
    getRemainingScans "Wed Oct 01 2025" none = 0 :=
  ⟨rfl, rfl, rfl⟩

/-- Claim C7 as amended: a missing session is not an error for the
entitlement reads — the feature gate answers `false` for every feature,
remaining-scans answers `0`, and the tier silently defaults to free —
while only the client identify action fails fast, with an
authentication-required error whenever the auth token is absent,
regardless of the other inputs; none of these paths retries. -/
theorem missing_session_behavior :
    (∀ feature, canAccessPremiumFeature none feature = false) ∧
    (∀ day, getRemainingScans day none = 0) ∧
    checkSubscriptionStatus none = Tier.free ∧
    (∀ today user apiResult,
      identifyBirdClient none today user apiResult =
        .error .authenticationRequired) :=
  ⟨fun _ => rfl, fun _ => rfl, rfl, fun _ _ _ => rfl⟩

/-- Claim C9: a feature name outside the enumerated map is denied to
everyone (the lookup defaults to `false`, premium tiers included), and a
user record with no `subscription_plan` is treated exactly as free by
the entitlement operations: the tier resolves to free, every feature is
denied, and remaining-scans computes exactly as for an explicit free
plan. -/
theorem unknown_feature_and_absent_plan (user : Option User)
    (feature : String) (u : User) (today : String)
    (hf : feature ∉ premiumFeatureNames)
    (hp : u.subscription_plan = none) :
    canAccessPremiumFeature user feature = false ∧
    checkSubscriptionStatus (some u) = .free ∧
    (∀ g, canAccessPremiumFeature (some u) g = false) ∧
    getRemainingScans today (some u) =
      getRemainingScans today (some { u with subscription_plan := some .free }) := by
  have hstat : checkSubscriptionStatus (some u) = .free := by
    simp [checkSubscriptionStatus, hp]
  refine ⟨?_, hstat, fun g => by simp [canAccessPremiumFeature, hstat], ?_⟩
  · unfold canAccessPremiumFeature
    by_cases hu : checkSubscriptionStatus user = .free
    · simp [hu]
    · simp [hu, premiumFeatures, hf]
  · simp [getRemainingScans, checkSubscriptionStatus, hp, lastScanDateString]

/-- Concrete run of claim C9's theorem: the unmapped feature name
`"super_zoom"` is denied even to a premium-yearly user, and a user with
an absent plan resolves to the free tier with free-tier remaining-scan
arithmetic. -/
theorem unknown_feature_and_absent_plan_witness :
    canAccessPremiumFeature (some ⟨some .premium_yearly, none, none⟩)
      "super_zoom" = false ∧
    checkSubscriptionStatus (some ⟨none, some 1, some "d"⟩) = .free ∧
    (∀ g, canAccessPremiumFeature (some ⟨none, some 1, some "d"⟩) g = false) ∧
    getRemainingScans "d" (some ⟨none, some 1, some "d"⟩) =
      getRemainingScans "d" (some ⟨some .free, some 1, some "d"⟩) :=
  unknown_feature_and_absent_plan (some ⟨some .premium_yearly, none, none⟩)
    "super_zoom" ⟨none, some 1, some "d"⟩ "d" (by decide) rfl

/-- Claim C10: for any user without the `unlimited_sightings`
entitlement (every free-tier or signed-out user), the sightings screen
reports the storage limit reached exactly when 5 or more sightings are
stored, and the export action always routes to the premium upsell
instead of exporting. -/
theorem sightings_limit_and_export (user : Option User) (n : Nat)
    (h : canAccessPremiumFeature user "unlimited_sightings" = false) :
    (hasLimitReached user n = true ↔ 5 ≤ n) ∧
    exportSightings user = .upsell := by
  constructor
  · simp [hasLimitReached, h]
  · simp [exportSightings, h]

/-- Concrete run of claim C10's theorem: a free user with 5 sightings
has hit the limit (and 4 would not), and their export attempt routes to
the upsell screen. -/
theorem sightings_limit_and_export_witness :
    (hasLimitReached (some ⟨some .free, none, none⟩) 5 = true ↔ 5 ≤ 5) ∧
    exportSightings (some ⟨some .free, none, none⟩) = .upsell :=
  sightings_limit_and_export (some ⟨some .free, none, none⟩) 5 (by decide)
